import Mathlib

/-!
Verification of the channel-post relay core (telegram-channel-forwarder).

Shallow embedding of the persistent data model (SQLAlchemy entities in
src/storage/models/entities.py), the repositories
(src/storage/repositories/delivery_repo.py, source_repo.py), the delivery
service (src/services/delivery_service.py), the dispatcher
(src/services/forwarder_service.py), the media-group assembler
(src/mtproto/handlers/new_message.py), the session layer
(src/shared/utils/crypto.py, src/mtproto/session_manager.py) and the
per-user supervisor state (src/services/forwarder_service.py).

Databases are modelled as in-memory lists of rows; every repository call in
the Python code opens a short-lived transaction on a single store, so a
sequential list-state model is faithful for the serialised (per-user lock)
pipeline that the claims quantify over.  Network egress is an oracle
parameter: the dispatcher receives the outcome (success / RateLimitError /
other exception) that the MTProto or Bot API call produced.
-/

/-- Delivery status, from DeliveryStatus in src/shared/constants.py
(values pending / success / failed stored in the status column). -/
inductive DeliveryStatus where
  | pending
  | success
  | failed
deriving DecidableEq, Repr

/-- Row of the delivery_logs table (class DeliveryLog in
src/storage/models/entities.py).  Timestamps are omitted: no claim
mentions them.  There is no unique constraint on
(user_id, source_id, original_message_id) in the entity, only the
non-unique Index idx_delivery_dedup. -/
structure DeliveryLog where
  id : Nat
  userId : Nat
  sourceId : Nat
  destinationId : Option Nat
  originalMessageId : Nat
  forwardedMessageId : Option Nat
  status : DeliveryStatus
  errorMessage : Option String
  retryCount : Nat
deriving DecidableEq, Repr

/-- Row of the sources table (class Source in entities.py); the columns a
claim touches.  last_message_id is the recorded high-water mark. -/
structure SourceRow where
  id : Nat
  userId : Nat
  channelId : Int
  isActive : Bool
  lastMessageId : Nat
deriving DecidableEq, Repr

/-- Row of the destinations table (class Destination in entities.py). -/
structure DestinationRow where
  id : Nat
  channelId : Int
deriving DecidableEq, Repr

/-- The persistent store visible to the dispatcher pipeline: delivery log
rows in insertion order plus the sources table.  nextLogId models the
autoincrement primary key of delivery_logs. -/
structure DB where
  logs : List DeliveryLog
  nextLogId : Nat
  sources : List SourceRow
deriving DecidableEq, Repr

/-- SQLAlchemy Result.scalar_one_or_none: none on zero rows, the row when
unique, and MultipleResultsFound is raised when the statement matched more
than one row. -/
def scalarOneOrNone (l : List α) : Except String (Option α) :=
  match l with
  | [] => .ok none
  | [x] => .ok (some x)
  | _ => .error "MultipleResultsFound"

/-- Semantic dedup key of the delivery log: the where-clause of
DeliveryRepository.find_by_message. -/
def keyMatch (userId sourceId msgId : Nat) (l : DeliveryLog) : Bool :=
  l.userId == userId && l.sourceId == sourceId &&
  l.originalMessageId == msgId

/-- DeliveryRepository.find_by_message: select DeliveryLog rows whose
user_id, source_id and original_message_id equal the key, then
scalar_one_or_none. -/
def findByMessage (db : DB) (userId sourceId msgId : Nat) :
    Except String (Option DeliveryLog) :=
  scalarOneOrNone (db.logs.filter (keyMatch userId sourceId msgId))

/-- DeliveryRepository.create_pending: insert a fresh row with status
pending and retry_count 0; returns the new row id. -/
def createPending (db : DB) (userId sourceId : Nat)
    (destinationId : Option Nat) (msgId : Nat) : DB × Nat :=
  let log : DeliveryLog :=
    { id := db.nextLogId
      userId := userId
      sourceId := sourceId
      destinationId := destinationId
      originalMessageId := msgId
      forwardedMessageId := none
      status := .pending
      errorMessage := none
      retryCount := 0 }
  ({ db with logs := db.logs ++ [log], nextLogId := db.nextLogId + 1 },
   db.nextLogId)

/-- DeliveryRepository.mark_success: update the row with the given id to
status success, recording the forwarded message id. -/
def markSuccess (db : DB) (logId fwdId : Nat) : DB :=
  { db with
    logs := db.logs.map fun l =>
      if l.id == logId then
        { l with status := .success, forwardedMessageId := some fwdId }
      else l }

/-- DeliveryRepository.mark_failed: no-op when the row id is unknown
(get_by_id returns None); otherwise set status failed, store the error
text, and increment retry_count iff increment_retry. -/
def markFailed (db : DB) (logId : Nat) (err : String)
    (incrementRetry : Bool) : DB :=
  if db.logs.any (fun l => l.id == logId) then
    { db with
      logs := db.logs.map fun l =>
        if l.id == logId then
          { l with
            status := .failed
            errorMessage := some err
            retryCount := if incrementRetry then l.retryCount + 1
                          else l.retryCount }
        else l }
  else db

/-- DeliveryService.check_duplicate: find_by_message, False when no row,
else True iff the (unique) row has status success. -/
def checkDuplicate (db : DB) (userId sourceId msgId : Nat) :
    Except String Bool :=
  match findByMessage db userId sourceId msgId with
  | .error e => .error e
  | .ok none => .ok false
  | .ok (some l) => .ok (l.status == .success)

/-- DeliveryService.mark_failed: will_retry (default True in the Python
signature) is forwarded to the repository as increment_retry. -/
def serviceMarkFailed (db : DB) (logId : Nat) (err : String)
    (willRetry : Bool := true) : DB :=
  markFailed db logId err willRetry

/-- SourceRepository.get_by_channel: select Source rows with the given
user_id and channel_id, scalar_one_or_none. -/
def getByChannel (db : DB) (userId : Nat) (channelId : Int) :
    Except String (Option SourceRow) :=
  scalarOneOrNone (db.sources.filter fun s =>
    s.userId == userId && s.channelId == channelId)

/-- SourceRepository.update_last_message: unconditional overwrite of
last_message_id for the row with the given primary key. -/
def updateLastMessage (db : DB) (sourceId msgId : Nat) : DB :=
  { db with
    sources := db.sources.map fun s =>
      if s.id == sourceId then { s with lastMessageId := msgId } else s }

/-- Structural prefix test on character lists (String.isPrefixOf is
well-founded recursion and does not reduce in the kernel). -/
def charsIsPrefixOf : List Char → List Char → Bool
  | [], _ => true
  | _ :: _, [] => false
  | c :: cs, d :: ds => c == d && charsIsPrefixOf cs ds

/-- Decimal parse of a character list, the digits-only fragment of the
Python int() constructor; none on the empty string or a non-digit. -/
def digitsToNatCore : List Char → Nat → Option Nat
  | [], acc => some acc
  | c :: cs, acc =>
    if c.isDigit then digitsToNatCore cs (acc * 10 + (c.toNat - 48))
    else none

/-- Decimal parse entry point: int(s) for a digit string, ValueError
(none) on the empty string. -/
def digitsToNat : List Char → Option Nat
  | [] => none
  | l => digitsToNatCore l 0

/-- ForwarderService._get_source_id channel-id normalisation: Python takes
str(channel_id), and when it starts with "-100" parses the remaining
characters back as an int (int of the empty string raises ValueError,
modelled as none). -/
def normalizeChannelId (channelId : Int) : Option Int :=
  let s := (toString channelId).data
  if charsIsPrefixOf "-100".data s then
    (digitsToNat (s.drop 4)).map Int.ofNat
  else some channelId

/-- ForwarderService._get_source_id: try get_by_channel with the
normalised id first, then with the id as received; returns the source
primary key when found. -/
def getSourceId (db : DB) (userId : Nat) (channelId : Int) :
    Except String (Option Nat) :=
  match normalizeChannelId channelId with
  | none => .error "ValueError"
  | some nid =>
    match getByChannel db userId nid with
    | .error e => .error e
    | .ok (some s) => .ok (some s.id)
    | .ok none =>
      match getByChannel db userId channelId with
      | .error e => .error e
      | .ok (some s) => .ok (some s.id)
      | .ok none => .ok none

/-- ForwarderService._update_source_offset: delegates to
SourceRepository.update_last_message. -/
def updateSourceOffset (db : DB) (sourceId msgId : Nat) : DB :=
  updateLastMessage db sourceId msgId

/-- ForwardTarget from forwarder_service.py: channel destination when
configured, otherwise DM fallback to the owning user. -/
structure ForwardTarget where
  isDm : Bool
  targetUserId : Option Nat
  destination : Option DestinationRow
deriving DecidableEq, Repr

/-- Incoming message as the dispatcher sees it: pyrogram Message fields
the pipeline reads (id, chat.id, media_group_id, text/caption). -/
structure Msg where
  id : Nat
  chatId : Int
  mediaGroupId : Option String
  text : Option String
  caption : Option String
deriving DecidableEq, Repr

/-- Errors the egress call can raise into the dispatcher.  MTProtoClient
(src/mtproto/client.py) turns pyrogram FloodWait into
RateLimitError(retry_after); anything else arrives as a generic
exception. -/
inductive ForwardErr where
  | rateLimited (retryAfter : Nat)
  | other (msg : String)
deriving DecidableEq, Repr

/-- MTProtoClient.copy_message (src/mtproto/client.py lines 428-453): the
pyrogram call either yields the forwarded message id, raises FloodWait
(re-raised as RateLimitError carrying e.value), or raises some other
transport error.  The pyrogram outcome is the oracle argument. -/
def copyMessage (pyrogramOutcome : Except ForwardErr Nat) :
    Except ForwardErr Nat :=
  match pyrogramOutcome with
  | .ok msgId => .ok msgId
  | .error (.rateLimited v) => .error (.rateLimited v)
  | .error (.other e) => .error (.other e)

/-- Observable effects of one dispatch, in program order.  egressSend is
recorded when the send call is performed (whatever its outcome); sleep
would record a cooperative pause of the dispatcher, and never occurs in
the code. -/
inductive Effect where
  | errorRaised (e : String)
  | droppedNoSource
  | droppedDuplicate
  | openedPending (logId : Nat)
  | egressSend (msgId : Nat)
  | markedSuccess (logId fwdId : Nat)
  | markedFailed (logId : Nat) (willRetry : Bool)
  | updatedOffset (sourceId msgId : Nat)
  | sleep (seconds : Nat)
  | notifiedOwner
deriving DecidableEq, Repr

/-- ForwarderService._forward_message (lines 322-438).  Source lookup,
duplicate check, pending record, then the egress attempt whose outcome is
the oracle; RateLimitError closes the record with will_retry True, any
other exception closes it with will_retry False and notifies the owner.
The interior of the egress (client acquisition, get_chat cache warm, the
DM download/re-upload branch vs copy_message/send_poll) performs no
store writes and is absorbed into the outcome argument.  Note that no
keyword filter is consulted anywhere on this path. -/
def forwardMessage (db : DB) (userId : Nat) (message : Msg)
    (target : ForwardTarget) (egress : Except ForwardErr Nat) :
    DB × List Effect :=
  match getSourceId db userId message.chatId with
  | .error e => (db, [.errorRaised e])
  | .ok none => (db, [.droppedNoSource])
  | .ok (some sourceId) =>
    match checkDuplicate db userId sourceId message.id with
    | .error e => (db, [.errorRaised e])
    | .ok true => (db, [.droppedDuplicate])
    | .ok false =>
      let destId := target.destination.map (fun d => d.id)
      let (db1, logId) := createPending db userId sourceId destId message.id
      match egress with
      | .ok fwdId =>
        let db2 := markSuccess db1 logId fwdId
        let db3 := updateSourceOffset db2 sourceId message.id
        (db3, [.openedPending logId, .egressSend message.id,
               .markedSuccess logId fwdId,
               .updatedOffset sourceId message.id])
      | .error (.rateLimited _) =>
        (serviceMarkFailed db1 logId "RateLimitError" true,
         [.openedPending logId, .egressSend message.id,
          .markedFailed logId true])
      | .error (.other e) =>
        (serviceMarkFailed db1 logId e false,
         [.openedPending logId, .egressSend message.id,
          .markedFailed logId false, .notifiedOwner])

/-- ForwarderService._forward_media_group (lines 440-543).  Keyed on the
first item; on success the offset is advanced to the id of the last item
of the list; the except clause catches every exception alike and calls
delivery_service.mark_failed without a will_retry argument, so the
Python default will_retry=True applies to rate limits and to any other
error. -/
def forwardMediaGroup (db : DB) (userId : Nat) (messages : List Msg)
    (target : ForwardTarget) (egress : Except ForwardErr Nat) :
    DB × List Effect :=
  match messages with
  | [] => (db, [])
  | firstMsg :: rest =>
    match getSourceId db userId firstMsg.chatId with
    | .error e => (db, [.errorRaised e])
    | .ok none => (db, [.droppedNoSource])
    | .ok (some sourceId) =>
      match checkDuplicate db userId sourceId firstMsg.id with
      | .error e => (db, [.errorRaised e])
      | .ok true => (db, [.droppedDuplicate])
      | .ok false =>
        let destId := target.destination.map (fun d => d.id)
        let (db1, logId) :=
          createPending db userId sourceId destId firstMsg.id
        let lastId := ((firstMsg :: rest).getLast (by simp)).id
        match egress with
        | .ok fwdId =>
          let db2 := markSuccess db1 logId fwdId
          let db3 := updateSourceOffset db2 sourceId lastId
          (db3, [.openedPending logId, .egressSend firstMsg.id,
                 .markedSuccess logId fwdId,
                 .updatedOffset sourceId lastId])
        | .error (.rateLimited _) =>
          (serviceMarkFailed db1 logId "RateLimitError",
           [.openedPending logId, .egressSend firstMsg.id,
            .markedFailed logId true])
        | .error (.other e) =>
          (serviceMarkFailed db1 logId e,
           [.openedPending logId, .egressSend firstMsg.id,
            .markedFailed logId true])

/-! MediaGroupCollector (src/mtproto/handlers/new_message.py).  Time is a
Nat (milliseconds); asyncio.create_task plus asyncio.sleep(timeout) is a
scheduled flush task with an absolute deadline.  The collector mutex makes
map mutations and flushes atomic, so the run is a sequence of atomic
events ordered by time. -/

/-- Message as the collector sees it: pyrogram message id and
media_group_id. -/
structure GMsg where
  id : Nat
  groupId : String
deriving DecidableEq, Repr

/-- One arrival event: the instant add_message is entered with the
message. -/
structure Arrival where
  time : Nat
  msg : GMsg
deriving DecidableEq, Repr

/-- One invocation of the album callback: when it fired, for which group
id, with which item list. -/
structure Callback where
  time : Nat
  groupId : String
  items : List GMsg
deriving DecidableEq, Repr

/-- Collector state: the _groups buffer map (insertion order) and the
scheduled flush tasks (absolute deadline, group id) created by
_schedule_flush. -/
structure CState where
  groups : List (String × List GMsg)
  tasks : List (Nat × String)
deriving DecidableEq, Repr

/-- MediaGroupCollector.add_message: falsy group id returns immediately;
a first message for a group creates the buffer and schedules a flush at
now + timeout; every message appends to the buffer. -/
def collectorAdd (timeout : Nat) (st : CState) (now : Nat) (m : GMsg) :
    CState :=
  if m.groupId == "" then st
  else
    match st.groups.find? (fun p => p.1 == m.groupId) with
    | none =>
      { groups := st.groups ++ [(m.groupId, [m])]
        tasks := st.tasks ++ [(now + timeout, m.groupId)] }
    | some _ =>
      { st with
        groups := st.groups.map fun p =>
          if p.1 == m.groupId then (p.1, p.2 ++ [m]) else p }

/-- Body of MediaGroupCollector._schedule_flush after the sleep: when the
group is still buffered, pop it, sort ascending by message id, and invoke
the callback; otherwise do nothing.  The task entry itself was already
consumed by the scheduler (the caller). -/
def flushGroup (st : CState) (gid : String) (fireTime : Nat) :
    CState × List Callback :=
  match st.groups.find? (fun p => p.1 == gid) with
  | none => (st, [])
  | some p =>
    ({ st with groups := st.groups.filter (fun q => !(q.1 == gid)) },
     [⟨fireTime, gid, List.insertionSort (fun a b => a.id ≤ b.id) p.2⟩])

/-- Run a batch of due flush tasks in order. -/
def fireTasks (st : CState) : List (Nat × String) → CState × List Callback
  | [] => (st, [])
  | (d, gid) :: rest =>
    let (st1, c1) := flushGroup st gid d
    let (st2, c2) := fireTasks st1 rest
    (st2, c1 ++ c2)

/-- Advance the clock to an arrival: every flush task whose deadline has
been reached fires first (each at its own deadline), then add_message
runs. -/
def stepArrival (timeout : Nat) (st : CState) (a : Arrival) :
    CState × List Callback :=
  let due := st.tasks.filter (fun p => p.1 ≤ a.time)
  let rest := st.tasks.filter (fun p => !(decide (p.1 ≤ a.time)))
  let (st1, cbs) := fireTasks { st with tasks := rest } due
  (collectorAdd timeout st1 a.time a.msg, cbs)

/-- Process the arrival events in order. -/
def runArrivals (timeout : Nat) (st : CState) :
    List Arrival → CState × List Callback
  | [] => (st, [])
  | a :: as =>
    let (st1, c1) := stepArrival timeout st a
    let (st2, c2) := runArrivals timeout st1 as
    (st2, c1 ++ c2)

/-- Complete run of the collector on a time-ordered arrival list: process
every arrival, then let every remaining flush task fire at its deadline.
Returns the album callbacks in firing order. -/
def runCollector (timeout : Nat) (arrivals : List Arrival) :
    List Callback :=
  let (st, cs) := runArrivals timeout ⟨[], []⟩ arrivals
  let (_, cs2) := fireTasks { st with tasks := [] } st.tasks
  cs ++ cs2

/-! ForwarderSupervisor per-user bookkeeping
(src/services/forwarder_service.py: the _active_users, _user_locks and
_polling_tasks dicts, the pyrogram add_handler registration, and
start_user_monitoring / stop_user_monitoring).  Database reads, session
loading and client acquisition have no effect on these components and are
elided; ids are drawn from a counter so that distinct tasks and handlers
are distinguishable. -/
structure SupState where
  activeUsers : List Nat
  userLocks : List Nat
  pollingTasks : List (Nat × Nat)
  registeredHandlers : List (Nat × Nat)
  cancelledTasks : List Nat
  nextId : Nat
deriving DecidableEq, Repr

/-- ForwarderService.stop_user_monitoring (lines 274-294): cancel and
delete the polling task when present; when the user is active, delete the
handler map entry and the lock.  No remove_handler call: the pyrogram
registration stays. -/
def stopUserMonitoring (st : SupState) (u : Nat) : SupState :=
  let st1 :=
    match st.pollingTasks.find? (fun p => p.1 == u) with
    | some p =>
      { st with
        cancelledTasks := st.cancelledTasks ++ [p.2]
        pollingTasks := st.pollingTasks.filter (fun q => !(q.1 == u)) }
    | none => st
  if st1.activeUsers.contains u then
    { st1 with
      activeUsers := st1.activeUsers.filter (fun v => !(v == u))
      userLocks := st1.userLocks.filter (fun v => !(v == u)) }
  else st1

/-- ForwarderService.start_user_monitoring (lines 98-272), the state
transitions in program order: implicit restart via stop when already
active; add_handler registers a fresh pyrogram handler (never removed);
dict assignment of the handler and lock; cancellation of a pre-existing
polling task (entry not removed at that point); dict overwrite with the
newly created polling task. -/
def startUserMonitoring (st : SupState) (u : Nat) : SupState :=
  let st1 := if st.activeUsers.contains u then stopUserMonitoring st u
             else st
  let hid := st1.nextId
  let st2 :=
    { st1 with
      registeredHandlers := st1.registeredHandlers ++ [(hid, u)]
      nextId := st1.nextId + 1 }
  let st3 :=
    { st2 with
      activeUsers := if st2.activeUsers.contains u then st2.activeUsers
                     else st2.activeUsers ++ [u]
      userLocks := if st2.userLocks.contains u then st2.userLocks
                   else st2.userLocks ++ [u] }
  let st4 :=
    match st3.pollingTasks.find? (fun p => p.1 == u) with
    | some p =>
      { st3 with cancelledTasks := st3.cancelledTasks ++ [p.2] }
    | none => st3
  let tid := st4.nextId
  { st4 with
    pollingTasks :=
      (st4.pollingTasks.filter (fun q => !(q.1 == u))) ++ [(u, tid)]
    nextId := st4.nextId + 1 }

/-! Session encryption (src/shared/utils/crypto.py).  PBKDF2 and Fernet
come from the external cryptography library; they are modelled at the
level of their documented contract. -/

/-- Modelled from the spec: the cryptography library PBKDF2HMAC key
derivation (spec 4.1).  The library function is external to the
repository; it is modelled as an ideal (collision-free) KDF, so the
derived key is represented by the inputs that determine it. -/
structure DerivedKey where
  password : List Nat
  salt : List Nat
  iterations : Nat
deriving DecidableEq, Repr

/-- Modelled from the spec: PBKDF2-HMAC-SHA-256 over the master key with
the given salt and iteration count. -/
def pbkdf2HmacSha256 (password salt : List Nat) (iterations : Nat) :
    DerivedKey :=
  ⟨password, salt, iterations⟩

/-- Modelled from the spec: a Fernet token (AES-128-CBC ciphertext plus
HMAC-SHA-256 tag, spec 4.1).  The library is external; the token is
modelled as ideal authenticated encryption jointly determined by the key
and the plaintext. -/
structure FernetToken where
  tokenKey : DerivedKey
  payload : List Nat
deriving DecidableEq, Repr

/-- Modelled from the spec: Fernet(key).encrypt(data). -/
def fernetEncrypt (key : DerivedKey) (data : List Nat) : FernetToken :=
  ⟨key, data⟩

/-- Modelled from the spec: Fernet(key).decrypt(token) recovers the
plaintext under the encrypting key and raises InvalidToken (the HMAC tag
does not verify) under any other key; it never returns garbage. -/
def fernetDecrypt (key : DerivedKey) (tok : FernetToken) :
    Except String (List Nat) :=
  if tok.tokenKey = key then .ok tok.payload else .error "InvalidToken"

/-- Decimal ASCII digits of n, most significant first, with fuel for
structural recursion (fuel n suffices for n > 0): the byte encoding of
the Python f-string interpolation of an int. -/
def asciiDigitsCore : Nat → Nat → List Nat
  | _, 0 => []
  | 0, _ => []
  | fuel + 1, n + 1 =>
    asciiDigitsCore fuel ((n + 1) / 10) ++ [(n + 1) % 10 + 48]

/-- Decimal ASCII byte string of a Nat (str(n).encode() in Python). -/
def asciiDigits (n : Nat) : List Nat :=
  if n = 0 then [48] else asciiDigitsCore n n

/-- Byte string of the fixed salt prefix SALT_PREFIX =
"tg_forward_bot_" (all ASCII, so codepoints are the bytes). -/
def saltPrefixBytes : List Nat := "tg_forward_bot_".data.map Char.toNat

/-- SessionEncryption._derive_key: salt is
f-string(SALT_PREFIX, user_id).encode(), fed to PBKDF2-HMAC-SHA-256 with
100000 iterations over the master key. -/
def saltBytes (userId : Nat) : List Nat :=
  saltPrefixBytes ++ asciiDigits userId

/-- SessionEncryption._derive_key continued: the derived per-user key. -/
def deriveKey (masterKey : List Nat) (userId : Nat) : DerivedKey :=
  pbkdf2HmacSha256 masterKey (saltBytes userId) 100000

/-- SessionEncryption.encrypt: Fernet under the user-specific key. -/
def sessionEncrypt (masterKey : List Nat) (userId : Nat)
    (data : List Nat) : FernetToken :=
  fernetEncrypt (deriveKey masterKey userId) data

/-- SessionEncryption.decrypt: Fernet decrypt under the user-specific
key. -/
def sessionDecrypt (masterKey : List Nat) (userId : Nat)
    (tok : FernetToken) : Except String (List Nat) :=
  fernetDecrypt (deriveKey masterKey userId) tok

/-! SessionManager.verify_session (src/mtproto/session_manager.py lines
117-149) and MTProtoClient.is_authorized (src/mtproto/client.py lines
318-327).  The upstream is an oracle giving the outcome of connect() and
get_me(). -/

/-- Outcomes the upstream produces for the two calls is_authorized
performs; an error value is any raised exception (transport failure,
AuthKeyUnregistered, UserDeactivated, ...). -/
structure UpstreamOracle where
  connectRes : Except String Unit
  getMeRes : Except String (Option Unit)
deriving Repr

/-- MTProtoClient.is_authorized: connect then get_me inside a try; any
exception from either call yields False; otherwise True iff get_me
returned a user object. -/
def isAuthorized (o : UpstreamOracle) : Bool :=
  match o.connectRes with
  | .error _ => false
  | .ok _ =>
    match o.getMeRes with
    | .error _ => false
    | .ok me => me.isSome

/-- Stored session row as verify_session observes it: the is_valid flag
and whether the ciphertext decrypts under the user key. -/
structure StoredSession where
  isValid : Bool
  decryptable : Bool
deriving DecidableEq, Repr

/-- Per-user session table entry (unique per user). -/
structure SessionStoreState where
  row : Option StoredSession
deriving DecidableEq, Repr

/-- SessionRepository.invalidate: set is_valid False. -/
def invalidateSession (s : SessionStoreState) : SessionStoreState :=
  { row := s.row.map (fun r => { r with isValid := false }) }

/-- SessionManager.load_session: get_valid_session filters on is_valid;
decrypt failure invalidates the row and returns None; returns whether a
plaintext was produced. -/
def loadSession (s : SessionStoreState) : SessionStoreState × Bool :=
  match s.row with
  | none => (s, false)
  | some r =>
    if !r.isValid then (s, false)
    else if r.decryptable then (s, true)
    else (invalidateSession s, false)

/-- SessionManager.verify_session: load the session (no plaintext means
False without touching upstream); inside the try, initialize may raise
(initRaises) and is normalised by the except clause into invalidate plus
False; otherwise is_authorized decides, and a False verdict invalidates
the row. -/
def verifySession (s : SessionStoreState) (initRaises : Bool)
    (o : UpstreamOracle) : SessionStoreState × Bool :=
  let (s1, loaded) := loadSession s
  if !loaded then (s1, false)
  else if initRaises then (invalidateSession s1, false)
  else if isAuthorized o then (s1, true)
  else (invalidateSession s1, false)

/-! FilterEngine.  No keyword filter is implemented anywhere under src/
(the configuration keys filter_keywords_raw / filter_mode /
filter_case_sensitive in src/app/config.py have no consumer); the
definitions below are needed to state the filtering claims and follow the
spec text. -/

/-- Modelled from the spec: a regex word character for the boundary rule
of spec 4.7 (the FilterEngine implementation is absent from src/). -/
def isWordChar (c : Char) : Bool := c.isAlphanum || c == '_'

/-- Modelled from the spec: a whitespace character for the hashtag rule
of spec 4.7. -/
def isSpaceChar (c : Char) : Bool :=
  c == ' ' || c == '\t' || c == '\n' || c == '\r'

/-- Modelled from the spec: keyword occurrence at position i under the
word-boundary rule (regex word boundary on both sides). -/
def matchWordAt (text kw : List Char) (i : Nat) : Bool :=
  charsIsPrefixOf kw (text.drop i) &&
  (i == 0 || !(isWordChar (text.getD (i - 1) ' '))) &&
  (decide (text.length ≤ i + kw.length) ||
   !(isWordChar (text.getD (i + kw.length) ' ')))

/-- Modelled from the spec: keyword occurrence at position i under the
hashtag rule (start or whitespace before, whitespace or end after). -/
def matchHashtagAt (text kw : List Char) (i : Nat) : Bool :=
  charsIsPrefixOf kw (text.drop i) &&
  (i == 0 || isSpaceChar (text.getD (i - 1) 'x')) &&
  (decide (text.length ≤ i + kw.length) ||
   isSpaceChar (text.getD (i + kw.length) 'x'))

/-- Modelled from the spec: some position of the text matches. -/
def existsMatchAt (f : List Char → List Char → Nat → Bool)
    (text kw : List Char) : Bool :=
  (List.range (text.length + 1)).any (fun i => f text kw i)

/-- Case folding for the case-insensitivity flag. -/
def lowerChars (l : List Char) : List Char := l.map Char.toLower

/-- Modelled from the spec: a single keyword matches the text, choosing
the hashtag rule when the keyword starts with a hash. -/
def keywordMatches (caseSensitive : Bool) (text kw : List Char) : Bool :=
  let t := if caseSensitive then text else lowerChars text
  let k := if caseSensitive then kw else lowerChars kw
  match k with
  | [] => false
  | c :: _ =>
    if c == '#' then existsMatchAt matchHashtagAt t k
    else existsMatchAt matchWordAt t k

/-- Filter mode from the configuration. -/
inductive FilterMode where
  | blacklist
  | whitelist
deriving DecidableEq, Repr

/-- Modelled from the spec: FilterEngine verdict — blacklist passes iff
no configured keyword matches, whitelist passes iff one does. -/
def filterPasses (keywords : List (List Char)) (mode : FilterMode)
    (caseSensitive : Bool) (text : List Char) : Bool :=
  match mode with
  | .blacklist =>
    !(keywords.any (fun k => keywordMatches caseSensitive text k))
  | .whitelist =>
    keywords.any (fun k => keywordMatches caseSensitive text k)


/-! Observable measures over a dispatch trace and the store. -/

/-- Whether an effect is the egress send call. -/
def isSendEffect : Effect → Bool
  | .egressSend _ => true
  | _ => false

/-- Number of egress sends a trace performs. -/
def sendCount (tr : List Effect) : Nat := (tr.filter isSendEffect).length

/-- Seconds an effect sleeps (0 for every non-sleep effect). -/
def sleepSeconds : Effect → Nat
  | .sleep s => s
  | _ => 0

/-- Total seconds a trace sleeps the dispatcher. -/
def totalSleep (tr : List Effect) : Nat := (tr.map sleepSeconds).sum

/-- Number of successful DeliveryRecords stored for a key. -/
def successCount (db : DB) (u s m : Nat) : Nat :=
  (db.logs.filter fun l =>
    keyMatch u s m l && l.status == DeliveryStatus.success).length

/-- Well-formed store: every stored log id is below the autoincrement
counter (an invariant of the id column the model makes explicit). -/
def wfDB (db : DB) : Prop := ∀ l ∈ db.logs, l.id < db.nextLogId

instance (db : DB) : Decidable (wfDB db) :=
  inferInstanceAs (Decidable (∀ l ∈ db.logs, l.id < db.nextLogId))

/-! Concrete fixture used by counterexamples and witnesses: user 7 owns
source row 1 for channel 1000 (wire form -1001000) with high-water 100,
forwarding into destination row 5. -/

/-- Fixture store. -/
def dbEx : DB :=
  { logs := [], nextLogId := 0
    sources := [{ id := 1, userId := 7, channelId := 1000,
                  isActive := true, lastMessageId := 100 }] }

/-- Fixture channel target. -/
def targetEx : ForwardTarget :=
  { isDm := false, targetUserId := none
    destination := some { id := 5, channelId := -1002000 } }

/-- Fixture message with the given id arriving from the monitored
channel. -/
def msgEx (i : Nat) : Msg :=
  { id := i, chatId := -1001000, mediaGroupId := none
    text := some "free promo today", caption := none }

/-! Generic list lemmas the pipeline proofs reuse. -/

/-- Mapping a function that fixes every member is the identity. -/
theorem listMapIdOf {α : Type} (l : List α) (f : α → α)
    (h : ∀ x ∈ l, f x = x) : l.map f = l := by
  induction l with
  | nil => rfl
  | cons a t ih =>
    simp only [List.map_cons]
    rw [h a (by simp), ih (fun x hx => h x (by simp [hx]))]

/-- Filtering by a predicate invariant under f commutes with mapping
f. -/
theorem listFilterMapComm {α : Type} (l : List α) (f : α → α)
    (p : α → Bool) (h : ∀ x, p (f x) = p x) :
    (l.map f).filter p = (l.filter p).map f := by
  induction l with
  | nil => rfl
  | cons a t ih =>
    simp only [List.map_cons, List.filter_cons, h a]
    cases hpa : p a <;> simp [hpa, ih]

/-- Strengthening the predicate of an empty filter keeps it empty. -/
theorem listFilterAndNil {α : Type} (l : List α) (p q : α → Bool)
    (h : l.filter p = []) : l.filter (fun x => p x && q x) = [] := by
  induction l with
  | nil => rfl
  | cons a t ih =>
    simp only [List.filter_cons] at h ⊢
    cases hpa : p a with
    | true => rw [hpa] at h; simp at h
    | false =>
      rw [hpa] at h
      simp only [Bool.false_and, cond_false]
      exact ih h


/-! Pipeline run lemmas: closed forms of one dispatch under the
hypotheses the claims quantify over. -/

/-- Duplicate check on a key with no stored record: False. -/
theorem checkDuplicate_of_fresh (db : DB) (u s m : Nat)
    (h : db.logs.filter (keyMatch u s m) = []) :
    checkDuplicate db u s m = .ok false := by
  simp [checkDuplicate, findByMessage, h, scalarOneOrNone]

/-- Duplicate check on a key with exactly one stored record: True iff
that record is successful. -/
theorem checkDuplicate_of_single (db : DB) (u s m : Nat)
    (r : DeliveryLog) (h : db.logs.filter (keyMatch u s m) = [r]) :
    checkDuplicate db u s m = .ok (r.status == .success) := by
  simp [checkDuplicate, findByMessage, h, scalarOneOrNone]

/-- Duplicate check on a key with two or more stored records raises
MultipleResultsFound. -/
theorem checkDuplicate_of_multi (db : DB) (u s m : Nat)
    (r r' : DeliveryLog) (t : List DeliveryLog)
    (h : db.logs.filter (keyMatch u s m) = r :: r' :: t) :
    checkDuplicate db u s m = .error "MultipleResultsFound" := by
  simp [checkDuplicate, findByMessage, h, scalarOneOrNone]

/-- Error text the dispatcher hands to mark_failed (str(e)). -/
def errString : ForwardErr → String
  | .rateLimited _ => "RateLimitError"
  | .other s => s

/-- Marking the freshly appended pending row leaves all previous rows
untouched (their ids are below the autoincrement counter). -/
theorem mapFreshId (db : DB) (hwf : wfDB db) (f : DeliveryLog → DeliveryLog)
    (hf : ∀ l, (l.id == db.nextLogId) = false → f l = l) :
    db.logs.map f = db.logs := by
  apply listMapIdOf
  intro x hx
  apply hf
  simp only [beq_eq_false_iff_ne]
  exact Nat.ne_of_lt (hwf x hx)

/-- Successful dispatch of a single non-duplicate message: one pending
record opened, one egress send, record closed success, high-water
overwritten with the message id. -/
theorem forwardMessage_success_run (db : DB) (u : Nat) (m : Msg)
    (target : ForwardTarget) (sid fwd : Nat)
    (hsrc : getSourceId db u m.chatId = .ok (some sid))
    (hfresh : db.logs.filter (keyMatch u sid m.id) = [])
    (hwf : wfDB db) :
    forwardMessage db u m target (.ok fwd) =
      ({ logs := db.logs ++
           [{ id := db.nextLogId, userId := u, sourceId := sid
              destinationId := target.destination.map (fun d => d.id)
              originalMessageId := m.id, forwardedMessageId := some fwd
              status := .success, errorMessage := none, retryCount := 0 }]
         nextLogId := db.nextLogId + 1
         sources := db.sources.map fun s =>
           if s.id == sid then { s with lastMessageId := m.id } else s },
       [.openedPending db.nextLogId, .egressSend m.id,
        .markedSuccess db.nextLogId fwd, .updatedOffset sid m.id]) := by
  have hdup := checkDuplicate_of_fresh db u sid m.id hfresh
  have hmap : db.logs.map (fun l =>
      if l.id == db.nextLogId then
        { l with status := DeliveryStatus.success,
                 forwardedMessageId := some fwd }
      else l) = db.logs := by
    apply mapFreshId db hwf
    intro l hl
    simp [hl]
  simp only [forwardMessage, hsrc, hdup, createPending, markSuccess,
    updateSourceOffset, updateLastMessage, List.map_append, hmap]
  simp

/-- Rate-limited dispatch of a single non-duplicate message: record
closed failed with retry incremented, no offset update, no sleep. -/
theorem forwardMessage_rateLimited_run (db : DB) (u : Nat) (m : Msg)
    (target : ForwardTarget) (sid t : Nat)
    (hsrc : getSourceId db u m.chatId = .ok (some sid))
    (hfresh : db.logs.filter (keyMatch u sid m.id) = [])
    (hwf : wfDB db) :
    forwardMessage db u m target (.error (.rateLimited t)) =
      ({ logs := db.logs ++
           [{ id := db.nextLogId, userId := u, sourceId := sid
              destinationId := target.destination.map (fun d => d.id)
              originalMessageId := m.id, forwardedMessageId := none
              status := .failed, errorMessage := some "RateLimitError"
              retryCount := 1 }]
         nextLogId := db.nextLogId + 1
         sources := db.sources },
       [.openedPending db.nextLogId, .egressSend m.id,
        .markedFailed db.nextLogId true]) := by
  have hdup := checkDuplicate_of_fresh db u sid m.id hfresh
  have hmap : db.logs.map (fun l =>
      if l.id = db.nextLogId then
        { l with status := DeliveryStatus.failed,
                 errorMessage := some "RateLimitError",
                 retryCount := l.retryCount + 1 }
      else l) = db.logs :=
    listMapIdOf _ _ (fun x hx => if_neg (Nat.ne_of_lt (hwf x hx)))
  simp only [forwardMessage, hsrc, hdup, createPending, serviceMarkFailed,
    markFailed, List.any_append, List.map_append]
  simp [hmap]

/-- Dispatch of a single non-duplicate message failing with any other
error: record closed failed without retry increment, owner notified, no
offset update. -/
theorem forwardMessage_otherError_run (db : DB) (u : Nat) (m : Msg)
    (target : ForwardTarget) (sid : Nat) (e : String)
    (hsrc : getSourceId db u m.chatId = .ok (some sid))
    (hfresh : db.logs.filter (keyMatch u sid m.id) = [])
    (hwf : wfDB db) :
    forwardMessage db u m target (.error (.other e)) =
      ({ logs := db.logs ++
           [{ id := db.nextLogId, userId := u, sourceId := sid
              destinationId := target.destination.map (fun d => d.id)
              originalMessageId := m.id, forwardedMessageId := none
              status := .failed, errorMessage := some e
              retryCount := 0 }]
         nextLogId := db.nextLogId + 1
         sources := db.sources },
       [.openedPending db.nextLogId, .egressSend m.id,
        .markedFailed db.nextLogId false, .notifiedOwner]) := by
  have hdup := checkDuplicate_of_fresh db u sid m.id hfresh
  have hmap : db.logs.map (fun l =>
      if l.id = db.nextLogId then
        { l with status := DeliveryStatus.failed,
                 errorMessage := some e,
                 retryCount := l.retryCount }
      else l) = db.logs :=
    listMapIdOf _ _ (fun x hx => if_neg (Nat.ne_of_lt (hwf x hx)))
  simp only [forwardMessage, hsrc, hdup, createPending, serviceMarkFailed,
    markFailed, List.any_append, List.map_append]
  simp [hmap]

/-- Dispatch of a non-duplicate album failing with any error whatsoever:
the record is closed failed with will_retry True (the Python default) and
the retry counter incremented. -/
theorem forwardMediaGroup_error_run (db : DB) (u : Nat) (first : Msg)
    (rest : List Msg) (target : ForwardTarget) (sid : Nat)
    (e : ForwardErr)
    (hsrc : getSourceId db u first.chatId = .ok (some sid))
    (hfresh : db.logs.filter (keyMatch u sid first.id) = [])
    (hwf : wfDB db) :
    forwardMediaGroup db u (first :: rest) target (.error e) =
      ({ logs := db.logs ++
           [{ id := db.nextLogId, userId := u, sourceId := sid
              destinationId := target.destination.map (fun d => d.id)
              originalMessageId := first.id, forwardedMessageId := none
              status := .failed, errorMessage := some (errString e)
              retryCount := 1 }]
         nextLogId := db.nextLogId + 1
         sources := db.sources },
       [.openedPending db.nextLogId, .egressSend first.id,
        .markedFailed db.nextLogId true]) := by
  have hdup := checkDuplicate_of_fresh db u sid first.id hfresh
  cases e with
  | rateLimited t =>
    have hmap : db.logs.map (fun l =>
        if l.id = db.nextLogId then
          { l with status := DeliveryStatus.failed,
                   errorMessage := some "RateLimitError",
                   retryCount := l.retryCount + 1 }
        else l) = db.logs :=
      listMapIdOf _ _ (fun x hx => if_neg (Nat.ne_of_lt (hwf x hx)))
    simp only [forwardMediaGroup, hsrc, hdup, createPending,
      serviceMarkFailed, markFailed, List.any_append, List.map_append,
      errString]
    simp [hmap]
  | other s =>
    have hmap : db.logs.map (fun l =>
        if l.id = db.nextLogId then
          { l with status := DeliveryStatus.failed,
                   errorMessage := some s,
                   retryCount := l.retryCount + 1 }
        else l) = db.logs :=
      listMapIdOf _ _ (fun x hx => if_neg (Nat.ne_of_lt (hwf x hx)))
    simp only [forwardMediaGroup, hsrc, hdup, createPending,
      serviceMarkFailed, markFailed, List.any_append, List.map_append,
      errString]
    simp [hmap]

/-- scalar_one_or_none commutes with mapping the row set. -/
theorem scalarOneOrNone_map {α : Type} (l : List α) (g : α → α) :
    scalarOneOrNone (l.map g) = (scalarOneOrNone l).map (Option.map g) := by
  match l with
  | [] => rfl
  | [x] => rfl
  | a :: b :: t => rfl

/-- Source lookup is unchanged by a sources-table rewrite that preserves
the id, user and channel columns (such as an update_last_message). -/
theorem getSourceId_map_sources (db : DB) (u : Nat) (c : Int)
    (g : SourceRow → SourceRow)
    (hg : ∀ s, (g s).userId = s.userId ∧ (g s).channelId = s.channelId ∧
      (g s).id = s.id) :
    getSourceId { db with sources := db.sources.map g } u c
      = getSourceId db u c := by
  have hchan : ∀ x : Int,
      getByChannel { db with sources := db.sources.map g } u x
        = (getByChannel db u x).map (Option.map g) := by
    intro x
    show scalarOneOrNone ((db.sources.map g).filter _) = _
    rw [listFilterMapComm _ g _
      (fun s => by simp [(hg s).1, (hg s).2.1]), scalarOneOrNone_map]
    rfl
  cases hn : normalizeChannelId c with
  | none => simp only [getSourceId, hn]
  | some nid =>
    simp only [getSourceId, hn]
    rw [hchan nid, hchan c]
    cases h1 : getByChannel db u nid with
    | error e => rfl
    | ok o =>
      cases o with
      | some s => simp [Except.map, (hg s).2.2]
      | none =>
        cases h2 : getByChannel db u c with
        | error e => rfl
        | ok o2 =>
          cases o2 with
          | some s => simp [Except.map, (hg s).2.2]
          | none => rfl

/-- The row update of mark_success / mark_failed never changes the dedup
key columns. -/
theorem keyMatch_after_close (u s m lid : Nat) (st : DeliveryStatus)
    (em : Option String) (rc : DeliveryLog → Nat) (l : DeliveryLog)
    (fm : Option Nat) :
    keyMatch u s m (if l.id == lid then
      { l with status := st, errorMessage := em, retryCount := rc l,
               forwardedMessageId := fm } else l)
      = keyMatch u s m l := by
  cases h : (l.id == lid) <;> simp [h, keyMatch]

/-- A dispatch that passes the duplicate check appends exactly one record
for the key, whatever the egress outcome. -/
theorem forwardMessage_key_count (db : DB) (u : Nat) (m : Msg)
    (target : ForwardTarget) (sid : Nat) (egress : Except ForwardErr Nat)
    (hsrc : getSourceId db u m.chatId = .ok (some sid))
    (hdup : checkDuplicate db u sid m.id = .ok false) :
    ((forwardMessage db u m target egress).1.logs.filter
        (keyMatch u sid m.id)).length
      = (db.logs.filter (keyMatch u sid m.id)).length + 1 := by
  simp only [forwardMessage, hsrc, hdup, createPending]
  have hpend : keyMatch u sid m.id
      { id := db.nextLogId, userId := u, sourceId := sid
        destinationId := target.destination.map (fun d => d.id)
        originalMessageId := m.id, forwardedMessageId := none
        status := .pending, errorMessage := none, retryCount := 0 }
      = true := by simp [keyMatch]
  cases egress with
  | ok fwd =>
    simp only [markSuccess, updateSourceOffset, updateLastMessage]
    rw [listFilterMapComm _ _ _ (fun l => by
      cases h : (l.id == db.nextLogId) <;> simp [h, keyMatch])]
    simp [List.filter_append, hpend]
  | error e =>
    cases e with
    | rateLimited t =>
      simp only [serviceMarkFailed, markFailed, List.any_append]
      rw [if_pos (by simp)]
      simp only []
      rw [listFilterMapComm _ _ _ (fun l => by
        cases h : (l.id == db.nextLogId) <;> simp [h, keyMatch])]
      simp [List.filter_append, hpend]
    | other s =>
      simp only [serviceMarkFailed, markFailed, List.any_append]
      rw [if_pos (by simp)]
      simp only []
      rw [listFilterMapComm _ _ _ (fun l => by
        cases h : (l.id == db.nextLogId) <;> simp [h, keyMatch])]
      simp [List.filter_append, hpend]

/-! Fixtures for the concrete counterexamples and witnesses. -/

/-- Store after successfully dispatching message 105. -/
def dbHw105 : DB := (forwardMessage dbEx 7 (msgEx 105) targetEx (.ok 900)).1

/-- Store after then successfully dispatching message 103. -/
def dbHw103 : DB := (forwardMessage dbHw105 7 (msgEx 103) targetEx (.ok 901)).1

/-- Claim C3 counterexample: the recorded high-water is not monotonic.
Successfully dispatching message 105 stores high-water 105; a later
successful dispatch of message 103 for the same source overwrites it with
103 < 105, so a later processing step stores a smaller value than one
already stored. -/
theorem highwater_decreases_cex :
    (dbHw105.sources.map fun s => s.lastMessageId) = [105]
    ∧ (dbHw103.sources.map fun s => s.lastMessageId) = [103]
    ∧ 103 < 105 := by decide

/-- Claim C3 (amended): after a successful dispatch the recorded
high-water of the source equals the dispatched message id exactly —
update_last_message is an unconditional overwrite, so the stored value is
at least m for the message just processed, but it is non-decreasing over
time only when message ids arrive in non-decreasing order. -/
theorem highwater_overwrite (db : DB) (u : Nat) (m : Msg)
    (target : ForwardTarget) (sid fwd : Nat)
    (hsrc : getSourceId db u m.chatId = .ok (some sid))
    (hfresh : db.logs.filter (keyMatch u sid m.id) = [])
    (hwf : wfDB db) :
    (forwardMessage db u m target (.ok fwd)).1.sources
      = db.sources.map (fun s =>
          if s.id == sid then { s with lastMessageId := m.id } else s)
    ∧ ∀ s ∈ (forwardMessage db u m target (.ok fwd)).1.sources,
        s.id = sid → s.lastMessageId = m.id := by
  have h := forwardMessage_success_run db u m target sid fwd hsrc hfresh hwf
  constructor
  · rw [h]
  · intro s hs hid
    rw [h] at hs
    rcases List.mem_map.mp hs with ⟨s₀, hs₀, rfl⟩
    by_cases h0 : s₀.id = sid
    · simp [h0]
    · rw [if_neg (by simpa using h0)] at hid ⊢
      exact absurd hid h0

/-- Witness for highwater_overwrite at the concrete fixture. -/
theorem highwater_overwrite_witness :
    (getSourceId dbEx 7 (msgEx 105).chatId = .ok (some 1)
      ∧ dbEx.logs.filter (keyMatch 7 1 (msgEx 105).id) = []
      ∧ wfDB dbEx)
    ∧ ((forwardMessage dbEx 7 (msgEx 105) targetEx (.ok 900)).1.sources
        = dbEx.sources.map (fun s =>
            if s.id == 1 then { s with lastMessageId := (msgEx 105).id }
            else s)
      ∧ ∀ s ∈ (forwardMessage dbEx 7 (msgEx 105) targetEx (.ok 900)).1.sources,
          s.id = 1 → s.lastMessageId = (msgEx 105).id) :=
  ⟨⟨by rfl, by decide, by decide⟩,
   highwater_overwrite dbEx 7 (msgEx 105) targetEx 1 900
     (by rfl) (by decide) (by decide)⟩

/-- Run of a single rate-limited dispatch on the fixture. -/
def rlRun : DB × List Effect :=
  forwardMessage dbEx 7 (msgEx 101) targetEx (.error (.rateLimited 7))

/-- Claim C5 counterexample: a dispatch failing with
RateLimited(retry_after = 7) performs no sleep at all — the trace holds
no sleep effect, so the dispatcher is not gated for at least 7 seconds as
the claim states (the record does close failed with will_retry True and
the high-water is untouched). -/
theorem ratelimit_no_sleep_cex :
    totalSleep rlRun.2 = 0
    ∧ ¬ 7 ≤ totalSleep rlRun.2
    ∧ rlRun.2 = [.openedPending 0, .egressSend 101, .markedFailed 0 true]
    ∧ rlRun.1.sources = dbEx.sources := by decide

/-- Claim C5 (amended): on RateLimited the DeliveryRecord closes failed
with will_retry True and the high-water is not advanced, but the
dispatcher never sleeps: the trace contains no sleep effect, so nothing
prevents the next dispatch for the user from starting immediately. -/
theorem ratelimit_failure_no_gate (db : DB) (u : Nat) (m : Msg)
    (target : ForwardTarget) (sid t : Nat)
    (hsrc : getSourceId db u m.chatId = .ok (some sid))
    (hfresh : db.logs.filter (keyMatch u sid m.id) = [])
    (hwf : wfDB db) :
    (forwardMessage db u m target (.error (.rateLimited t))).1.sources
      = db.sources
    ∧ (forwardMessage db u m target (.error (.rateLimited t))).1.logs
      = db.logs ++
        [{ id := db.nextLogId, userId := u, sourceId := sid
           destinationId := target.destination.map (fun d => d.id)
           originalMessageId := m.id, forwardedMessageId := none
           status := .failed, errorMessage := some "RateLimitError"
           retryCount := 1 }]
    ∧ (forwardMessage db u m target (.error (.rateLimited t))).2
      = [.openedPending db.nextLogId, .egressSend m.id,
         .markedFailed db.nextLogId true]
    ∧ totalSleep (forwardMessage db u m target (.error (.rateLimited t))).2
      = 0 := by
  have h := forwardMessage_rateLimited_run db u m target sid t hsrc hfresh hwf
  rw [h]
  exact ⟨rfl, rfl, rfl, rfl⟩

/-- Witness for ratelimit_failure_no_gate at the concrete fixture. -/
theorem ratelimit_failure_no_gate_witness :
    (getSourceId dbEx 7 (msgEx 101).chatId = .ok (some 1)
      ∧ dbEx.logs.filter (keyMatch 7 1 (msgEx 101).id) = []
      ∧ wfDB dbEx)
    ∧ ((forwardMessage dbEx 7 (msgEx 101) targetEx
          (.error (.rateLimited 7))).1.sources = dbEx.sources
      ∧ (forwardMessage dbEx 7 (msgEx 101) targetEx
          (.error (.rateLimited 7))).1.logs
        = dbEx.logs ++
          [{ id := dbEx.nextLogId, userId := 7, sourceId := 1
             destinationId := targetEx.destination.map (fun d => d.id)
             originalMessageId := (msgEx 101).id
             forwardedMessageId := none
             status := .failed, errorMessage := some "RateLimitError"
             retryCount := 1 }]
      ∧ (forwardMessage dbEx 7 (msgEx 101) targetEx
          (.error (.rateLimited 7))).2
        = [.openedPending dbEx.nextLogId, .egressSend (msgEx 101).id,
           .markedFailed dbEx.nextLogId true]
      ∧ totalSleep (forwardMessage dbEx 7 (msgEx 101) targetEx
          (.error (.rateLimited 7))).2 = 0) :=
  ⟨⟨by rfl, by decide, by decide⟩,
   ratelimit_failure_no_gate dbEx 7 (msgEx 101) targetEx 1 7
     (by rfl) (by decide) (by decide)⟩

/-- Run of an album dispatch failing with a non-rate-limit error on the
fixture. -/
def albumErrRun : DB × List Effect :=
  forwardMediaGroup dbEx 7 [msgEx 201, msgEx 202] targetEx
    (.error (.other "boom"))

/-- Claim C6 counterexample: an album dispatch failing with an error that
is not RateLimited closes its DeliveryRecord with will_retry True and
increments the retry counter — the album error handler passes no
will_retry argument, so the Python default True applies, contradicting
the claimed will_retry False for non-rate-limit errors. -/
theorem album_error_willretry_true_cex :
    albumErrRun.2
      = [.openedPending 0, .egressSend 201, .markedFailed 0 true]
    ∧ (albumErrRun.1.logs.map fun l => l.retryCount) = [1]
    ∧ (albumErrRun.1.logs.map fun l => l.status) = [.failed] := by decide

/-- Claim C6 (amended): for a single-message dispatch the record closes
with will_retry True exactly when the error is RateLimited and with
will_retry False otherwise, and the retry counter is incremented iff
will_retry; for an album dispatch every error — RateLimited or not —
closes the record with will_retry True and increments the counter. -/
theorem failure_willretry_semantics (db : DB) (u : Nat) (m : Msg)
    (rest : List Msg) (target : ForwardTarget) (sid t : Nat) (e : String)
    (hsrc : getSourceId db u m.chatId = .ok (some sid))
    (hfresh : db.logs.filter (keyMatch u sid m.id) = [])
    (hwf : wfDB db) :
    ((forwardMessage db u m target (.error (.rateLimited t))).2
        = [.openedPending db.nextLogId, .egressSend m.id,
           .markedFailed db.nextLogId true]
      ∧ (forwardMessage db u m target (.error (.rateLimited t))).1.logs
        = db.logs ++
          [{ id := db.nextLogId, userId := u, sourceId := sid
             destinationId := target.destination.map (fun d => d.id)
             originalMessageId := m.id, forwardedMessageId := none
             status := .failed, errorMessage := some "RateLimitError"
             retryCount := 1 }])
    ∧ ((forwardMessage db u m target (.error (.other e))).2
        = [.openedPending db.nextLogId, .egressSend m.id,
           .markedFailed db.nextLogId false, .notifiedOwner]
      ∧ (forwardMessage db u m target (.error (.other e))).1.logs
        = db.logs ++
          [{ id := db.nextLogId, userId := u, sourceId := sid
             destinationId := target.destination.map (fun d => d.id)
             originalMessageId := m.id, forwardedMessageId := none
             status := .failed, errorMessage := some e
             retryCount := 0 }])
    ∧ (∀ err : ForwardErr,
        (forwardMediaGroup db u (m :: rest) target (.error err)).2
          = [.openedPending db.nextLogId, .egressSend m.id,
             .markedFailed db.nextLogId true]
        ∧ (forwardMediaGroup db u (m :: rest) target (.error err)).1.logs
          = db.logs ++
            [{ id := db.nextLogId, userId := u, sourceId := sid
               destinationId := target.destination.map (fun d => d.id)
               originalMessageId := m.id, forwardedMessageId := none
               status := .failed, errorMessage := some (errString err)
               retryCount := 1 }]) := by
  refine ⟨?_, ?_, ?_⟩
  · have h := forwardMessage_rateLimited_run db u m target sid t hsrc hfresh hwf
    exact ⟨by rw [h], by rw [h]⟩
  · have h := forwardMessage_otherError_run db u m target sid e hsrc hfresh hwf
    exact ⟨by rw [h], by rw [h]⟩
  · intro err
    have h := forwardMediaGroup_error_run db u m rest target sid err hsrc hfresh hwf
    exact ⟨by rw [h], by rw [h]⟩

/-- Witness for failure_willretry_semantics at the concrete fixture,
instantiated at the album error branch with a non-rate-limit error. -/
theorem failure_willretry_semantics_witness :
    (getSourceId dbEx 7 (msgEx 201).chatId = .ok (some 1)
      ∧ dbEx.logs.filter (keyMatch 7 1 (msgEx 201).id) = []
      ∧ wfDB dbEx)
    ∧ (forwardMediaGroup dbEx 7 [msgEx 201, msgEx 202] targetEx
        (.error (.other "boom"))).2
      = [.openedPending dbEx.nextLogId, .egressSend (msgEx 201).id,
         .markedFailed dbEx.nextLogId true] :=
  ⟨⟨by rfl, by decide, by decide⟩,
   ((failure_willretry_semantics dbEx 7 (msgEx 201) [msgEx 202] targetEx
      1 7 "boom" (by rfl) (by decide) (by decide)).2.2
      (.other "boom")).1⟩

/-- Store after an initial failed dispatch of message 101. -/
def dbFail1 : DB :=
  (forwardMessage dbEx 7 (msgEx 101) targetEx (.error (.other "boom"))).1

/-- Store after retrying message 101 successfully on top of the failed
record. -/
def dbTwoRecs : DB :=
  (forwardMessage dbFail1 7 (msgEx 101) targetEx (.ok 900)).1

/-- Claim C7 counterexample: the semantic key is not unique — after a
failed dispatch the key holds one record, and the retry creates a second
record for the same (owner, source, original message id) key. -/
theorem second_record_created_cex :
    (dbFail1.logs.filter (keyMatch 7 1 101)).length = 1
    ∧ (dbTwoRecs.logs.filter (keyMatch 7 1 101)).length = 2 := by decide

/-- Claim C7 (amended): a pending or failed record does not block the
pipeline — a dispatch over a key holding exactly one non-successful
record creates a second record for that key; once a key holds two or more
records, the duplicate check raises MultipleResultsFound and the dispatch
aborts before creating any further record, leaving the store unchanged. -/
theorem delivery_key_multiplicity (db : DB) (u : Nat) (m : Msg)
    (target : ForwardTarget) (sid : Nat) (egress : Except ForwardErr Nat)
    (r : DeliveryLog)
    (hsrc : getSourceId db u m.chatId = .ok (some sid))
    (hone : db.logs.filter (keyMatch u sid m.id) = [r])
    (hr : r.status ≠ .success) :
    ((forwardMessage db u m target egress).1.logs.filter
        (keyMatch u sid m.id)).length = 2
    ∧ (∀ db2 r1 r2 tl,
        db2.logs.filter (keyMatch u sid m.id) = r1 :: r2 :: tl →
        getSourceId db2 u m.chatId = .ok (some sid) →
        forwardMessage db2 u m target egress
          = (db2, [.errorRaised "MultipleResultsFound"])) := by
  constructor
  · have hdup : checkDuplicate db u sid m.id = .ok false := by
      rw [checkDuplicate_of_single db u sid m.id r hone]
      simp [hr]
    rw [forwardMessage_key_count db u m target sid egress hsrc hdup, hone]
    rfl
  · intro db2 r1 r2 tl hmulti hsrc2
    have hdup2 := checkDuplicate_of_multi db2 u sid m.id r1 r2 tl hmulti
    simp only [forwardMessage, hsrc2, hdup2]

/-- Witness for delivery_key_multiplicity at the concrete fixture: the
failed record left by the first dispatch of message 101. -/
theorem delivery_key_multiplicity_witness :
    (getSourceId dbFail1 7 (msgEx 101).chatId = .ok (some 1)
      ∧ dbFail1.logs.filter (keyMatch 7 1 (msgEx 101).id)
        = [{ id := 0, userId := 7, sourceId := 1
             destinationId := some 5, originalMessageId := 101
             forwardedMessageId := none, status := .failed
             errorMessage := some "boom", retryCount := 0 }]
      ∧ ({ id := 0, userId := 7, sourceId := 1
           destinationId := some 5, originalMessageId := 101
           forwardedMessageId := none, status := .failed
           errorMessage := some "boom",
           retryCount := 0 } : DeliveryLog).status ≠ .success)
    ∧ ((forwardMessage dbFail1 7 (msgEx 101) targetEx (.ok 900)).1.logs.filter
        (keyMatch 7 1 (msgEx 101).id)).length = 2 :=
  ⟨⟨by rfl, by decide, by decide⟩,
   (delivery_key_multiplicity dbFail1 7 (msgEx 101) targetEx 1 (.ok 900)
      { id := 0, userId := 7, sourceId := 1
        destinationId := some 5, originalMessageId := 101
        forwardedMessageId := none, status := .failed
        errorMessage := some "boom", retryCount := 0 }
      (by rfl) (by decide) (by decide)).1⟩

deriving instance DecidableEq for Except

/-- Source lookup only reads the sources table. -/
theorem getSourceId_congr_sources (db db' : DB) (u : Nat) (c : Int)
    (h : db.sources = db'.sources) :
    getSourceId db u c = getSourceId db' u c := by
  unfold getSourceId getByChannel
  rw [h]

/-- A dispatch whose duplicate check answers True drops the message
without touching the store. -/
theorem forwardMessage_dup_run (db : DB) (u : Nat) (m : Msg)
    (target : ForwardTarget) (sid : Nat) (egress : Except ForwardErr Nat)
    (hsrc : getSourceId db u m.chatId = .ok (some sid))
    (hdup : checkDuplicate db u sid m.id = .ok true) :
    forwardMessage db u m target egress = (db, [.droppedDuplicate]) := by
  simp only [forwardMessage, hsrc, hdup]

/-- Claim C1 counterexample: the duplicate check does not return True
whenever a successful record exists for the key — in the reachable store
holding a failed record and a successful record for (7, 1, 101), a
successful record exists yet check_duplicate raises MultipleResultsFound
instead of returning True. -/
theorem checkDuplicate_error_with_success_cex :
    checkDuplicate dbTwoRecs 7 1 101 = .error "MultipleResultsFound"
    ∧ (dbTwoRecs.logs.any fun l =>
        keyMatch 7 1 101 l && l.status == DeliveryStatus.success) = true
    ∧ checkDuplicate dbTwoRecs 7 1 101 ≠ .ok true := by decide

/-- Claim C1 (amended): feeding the same message twice with a successful
first attempt yields exactly one successful DeliveryRecord and exactly
one egress send — the second pass drops before opening a record or
sending; the duplicate check returns True iff the key holds exactly one
record and it is successful (False on no record; with two or more records
it raises instead of returning). -/
theorem dedup_pipeline_exactly_once (db : DB) (u : Nat) (m : Msg)
    (target : ForwardTarget) (sid fwd : Nat)
    (egress2 : Except ForwardErr Nat)
    (hsrc : getSourceId db u m.chatId = .ok (some sid))
    (hfresh : db.logs.filter (keyMatch u sid m.id) = [])
    (hwf : wfDB db) :
    forwardMessage (forwardMessage db u m target (.ok fwd)).1 u m target
        egress2
      = ((forwardMessage db u m target (.ok fwd)).1, [.droppedDuplicate])
    ∧ successCount (forwardMessage db u m target (.ok fwd)).1 u sid m.id
      = 1
    ∧ sendCount (forwardMessage db u m target (.ok fwd)).2
      + sendCount (forwardMessage (forwardMessage db u m target
          (.ok fwd)).1 u m target egress2).2 = 1
    ∧ (∀ db2 r, db2.logs.filter (keyMatch u sid m.id) = [r] →
        (checkDuplicate db2 u sid m.id = .ok true ↔
          r.status = .success))
    ∧ (∀ db2, db2.logs.filter (keyMatch u sid m.id) = [] →
        checkDuplicate db2 u sid m.id = .ok false) := by
  have h1 := forwardMessage_success_run db u m target sid fwd hsrc hfresh hwf
  have hsrc1 : getSourceId (forwardMessage db u m target (.ok fwd)).1 u
      m.chatId = .ok (some sid) := by
    rw [h1]
    have hcong := getSourceId_congr_sources
      { logs := db.logs ++
          [{ id := db.nextLogId, userId := u, sourceId := sid
             destinationId := target.destination.map (fun d => d.id)
             originalMessageId := m.id, forwardedMessageId := some fwd
             status := .success, errorMessage := none, retryCount := 0 }]
        nextLogId := db.nextLogId + 1
        sources := db.sources.map fun s =>
          if s.id == sid then { s with lastMessageId := m.id } else s }
      { db with sources := db.sources.map fun s =>
          if s.id == sid then { s with lastMessageId := m.id } else s }
      u m.chatId rfl
    rw [hcong, getSourceId_map_sources db u m.chatId _
      (fun s => by by_cases h0 : s.id = sid <;> simp [h0]), hsrc]
  have hfilter1 : (forwardMessage db u m target (.ok fwd)).1.logs.filter
      (keyMatch u sid m.id)
      = [{ id := db.nextLogId, userId := u, sourceId := sid
           destinationId := target.destination.map (fun d => d.id)
           originalMessageId := m.id, forwardedMessageId := some fwd
           status := .success, errorMessage := none, retryCount := 0 }] := by
    rw [h1]
    show (db.logs ++ _).filter _ = _
    rw [List.filter_append, hfresh]
    simp [keyMatch]
  have hdup1 : checkDuplicate (forwardMessage db u m target (.ok fwd)).1 u
      sid m.id = .ok true := by
    rw [checkDuplicate_of_single _ _ _ _ _ hfilter1]
    rfl
  refine ⟨?_, ?_, ?_, ?_, ?_⟩
  · exact forwardMessage_dup_run _ _ _ _ _ _ hsrc1 hdup1
  · unfold successCount
    rw [h1]
    show ((db.logs ++ _).filter _).length = 1
    rw [List.filter_append, listFilterAndNil _ _ _ hfresh]
    simp [keyMatch]
  · have h2 := forwardMessage_dup_run _ _ _ target _ egress2 hsrc1 hdup1
    rw [h2, h1]
    simp [sendCount, isSendEffect]
  · intro db2 r hone2
    rw [checkDuplicate_of_single _ _ _ _ _ hone2]
    simp
  · intro db2 hfresh2
    exact checkDuplicate_of_fresh _ _ _ _ hfresh2

/-- Witness for dedup_pipeline_exactly_once at the concrete fixture:
message 101 dispatched successfully then fed again. -/
theorem dedup_pipeline_exactly_once_witness :
    (getSourceId dbEx 7 (msgEx 101).chatId = .ok (some 1)
      ∧ dbEx.logs.filter (keyMatch 7 1 (msgEx 101).id) = []
      ∧ wfDB dbEx)
    ∧ forwardMessage (forwardMessage dbEx 7 (msgEx 101) targetEx
          (.ok 900)).1 7 (msgEx 101) targetEx (.ok 901)
      = ((forwardMessage dbEx 7 (msgEx 101) targetEx (.ok 900)).1,
         [.droppedDuplicate])
    ∧ successCount (forwardMessage dbEx 7 (msgEx 101) targetEx
        (.ok 900)).1 7 1 (msgEx 101).id = 1
    ∧ sendCount (forwardMessage dbEx 7 (msgEx 101) targetEx (.ok 900)).2
      + sendCount (forwardMessage (forwardMessage dbEx 7 (msgEx 101)
          targetEx (.ok 900)).1 7 (msgEx 101) targetEx (.ok 901)).2
      = 1 :=
  have h := dedup_pipeline_exactly_once dbEx 7 (msgEx 101) targetEx 1 900
    (.ok 901) (by decide) (by decide) (by decide)
  ⟨⟨by decide, by decide, by decide⟩, h.1, h.2.1, h.2.2.1⟩

/-- Claim C2 theorem (code evaluated at the failing input): the message
text matches the configured blacklist keyword, so the spec-modelled
filter blocks it, yet the dispatcher — which consults no filter — still
performs exactly one egress send and records a success. -/
theorem blocked_text_still_sent :
    filterPasses ["promo".data] .blacklist false "free promo today".data
      = false
    ∧ (msgEx 101).text = some "free promo today"
    ∧ sendCount (forwardMessage dbEx 7 (msgEx 101) targetEx (.ok 900)).2
      = 1
    ∧ (forwardMessage dbEx 7 (msgEx 101) targetEx (.ok 900)).2
      = [.openedPending 0, .egressSend 101, .markedSuccess 0 900,
         .updatedOffset 1 101] := by decide

/-- Empty supervisor state. -/
def sup0 : SupState :=
  { activeUsers := [], userLocks := [], pollingTasks := []
    registeredHandlers := [], cancelledTasks := [], nextId := 0 }

/-- Supervisor state after calling start twice for user 7. -/
def sup2 : SupState := startUserMonitoring (startUserMonitoring sup0 7) 7

/-- Claim C9 theorem (code evaluated at the failing input): calling
start(7) twice leaves exactly one live polling task but two registered
pyrogram event handlers — the implicit stop-then-start restart never
removes the handler registered by the first start, so the observable
monitoring state differs from a single start, which registers exactly
one. -/
theorem double_start_duplicate_handler :
    (sup2.registeredHandlers.filter fun p => p.2 == 7).length = 2
    ∧ (sup2.pollingTasks.filter fun p => p.1 == 7).length = 1
    ∧ sup2.activeUsers = [7]
    ∧ sup2.userLocks = [7]
    ∧ ((startUserMonitoring sup0 7).registeredHandlers.filter
        fun p => p.2 == 7).length = 1 := by decide

/-! Decimal-digit arithmetic for the per-user salt. -/

/-- Folding the decimal ASCII digits back: the digits of n produced with
enough fuel decode to n (positional base-10 evaluation). -/
theorem asciiDigitsCore_foldl (fuel : Nat) :
    ∀ n acc, n ≤ fuel →
      List.foldl (fun a d => a * 10 + (d - 48)) acc
          (asciiDigitsCore fuel n)
        = acc * 10 ^ (asciiDigitsCore fuel n).length + n := by
  induction fuel with
  | zero =>
    intro n acc h
    have hn : n = 0 := Nat.le_zero.mp h
    subst hn
    simp [asciiDigitsCore]
  | succ f ih =>
    intro n acc h
    cases n with
    | zero => simp [asciiDigitsCore]
    | succ k =>
      have hdiv : (k + 1) / 10 ≤ f := by
        have h1 : (k + 1) / 10 < k + 1 :=
          Nat.div_lt_self (Nat.succ_pos k) (by omega)
        omega
      have hstep : asciiDigitsCore (f + 1) (k + 1)
          = asciiDigitsCore f ((k + 1) / 10) ++ [(k + 1) % 10 + 48] := rfl
      rw [hstep, List.foldl_append, ih ((k + 1) / 10) acc hdiv]
      simp only [List.foldl_cons, List.foldl_nil, List.length_append,
        List.length_cons, List.length_nil]
      have hsub : (k + 1) % 10 + 48 - 48 = (k + 1) % 10 := by omega
      rw [hsub]
      calc (acc * 10 ^ (asciiDigitsCore f ((k + 1) / 10)).length
              + (k + 1) / 10) * 10 + (k + 1) % 10
          = acc * (10 ^ (asciiDigitsCore f ((k + 1) / 10)).length * 10)
            + (10 * ((k + 1) / 10) + (k + 1) % 10) := by ring
        _ = acc * 10 ^ ((asciiDigitsCore f ((k + 1) / 10)).length + 1)
            + (k + 1) := by rw [Nat.div_add_mod, pow_succ]

/-- Decoding the digits of n yields n. -/
theorem unDigits_asciiDigits (n : Nat) :
    List.foldl (fun a d => a * 10 + (d - 48)) 0 (asciiDigits n) = n := by
  unfold asciiDigits
  by_cases h : n = 0
  · subst h
    simp
  · rw [if_neg h, asciiDigitsCore_foldl n n 0 (Nat.le_refl n)]
    simp

/-- The decimal ASCII encoding of a Nat is injective. -/
theorem asciiDigits_injective : Function.Injective asciiDigits := by
  intro a b h
  have ha := unDigits_asciiDigits a
  have hb := unDigits_asciiDigits b
  rw [h, hb] at ha
  exact ha.symm

/-- Distinct user ids produce distinct salts (the fixed prefix cancels
and the decimal encodings differ). -/
theorem saltBytes_injective : Function.Injective saltBytes := by
  intro a b h
  unfold saltBytes at h
  exact asciiDigits_injective (List.append_cancel_left h)

/-- Claim C8: session encryption round-trips for the owning user, and
decryption under any other user id fails with an authentication error
(InvalidToken) instead of returning a plaintext — the per-user PBKDF2
salts differ, so the derived keys differ and the tag check fails. -/
theorem session_crypto_roundtrip (master : List Nat) (u v : Nat)
    (b : List Nat) (h : u ≠ v) :
    sessionDecrypt master u (sessionEncrypt master u b) = .ok b
    ∧ sessionDecrypt master v (sessionEncrypt master u b)
      = .error "InvalidToken" := by
  constructor
  · simp [sessionDecrypt, sessionEncrypt, fernetDecrypt, fernetEncrypt]
  · have hk : deriveKey master u ≠ deriveKey master v := by
      intro hk
      apply h
      apply saltBytes_injective
      exact congrArg DerivedKey.salt hk
    simp only [sessionDecrypt, sessionEncrypt, fernetDecrypt,
      fernetEncrypt]
    rw [if_neg hk]

/-- Witness for session_crypto_roundtrip at concrete users 1 and 2. -/
theorem session_crypto_roundtrip_witness :
    (1 ≠ 2)
    ∧ sessionDecrypt [7] 1 (sessionEncrypt [7] 1 [104, 105])
      = .ok [104, 105]
    ∧ sessionDecrypt [7] 2 (sessionEncrypt [7] 1 [104, 105])
      = .error "InvalidToken" :=
  have h := session_crypto_roundtrip [7] 1 2 [104, 105] (by decide)
  ⟨by decide, h.1, h.2⟩

/-- Claim C10: for a user with a stored, valid, decryptable session,
verify_session invalidates the row and returns False on every exception
raised while connecting to or querying the upstream — transport failures
included — and it returns True only when the upstream connection and the
get_me authorization query both succeeded with a user object. -/
theorem verify_session_normalises_errors (s : SessionStoreState)
    (r : StoredSession) (initR : Bool) (o : UpstreamOracle)
    (hrow : s.row = some r) (hvalid : r.isValid = true)
    (hdec : r.decryptable = true) :
    (((∃ e, o.connectRes = .error e) ∨ (∃ e, o.getMeRes = .error e)
        ∨ initR = true) →
      verifySession s initR o = (invalidateSession s, false))
    ∧ (∀ s2, verifySession s initR o = (s2, true) →
        initR = false ∧ o.connectRes = .ok ()
        ∧ o.getMeRes = .ok (some ())) := by
  have hload : loadSession s = (s, true) := by
    simp [loadSession, hrow, hvalid, hdec]
  have hver : verifySession s initR o
      = if initR then (invalidateSession s, false)
        else if isAuthorized o then (s, true)
        else (invalidateSession s, false) := by
    simp [verifySession, hload]
  constructor
  · intro herr
    rw [hver]
    cases hi : initR with
    | true => simp
    | false =>
      have hauth : isAuthorized o = false := by
        rcases herr with ⟨e, he⟩ | ⟨e, he⟩ | hr
        · simp [isAuthorized, he]
        · cases hc : o.connectRes with
          | error e2 => simp [isAuthorized, hc]
          | ok x => simp [isAuthorized, hc, he]
        · rw [hi] at hr
          exact absurd hr (by simp)
      simp [hauth]
  · intro s2 hres
    rw [hver] at hres
    cases hi : initR with
    | true => rw [hi] at hres; simp at hres
    | false =>
      rw [hi] at hres
      simp only [if_false, Bool.false_eq_true] at hres
      cases ha : isAuthorized o with
      | false => rw [ha] at hres; simp at hres
      | true =>
        refine ⟨rfl, ?_, ?_⟩
        · cases hc : o.connectRes with
          | error e => rw [isAuthorized, hc] at ha; simp at ha
          | ok x => cases x; rfl
        · cases hc : o.connectRes with
          | error e => rw [isAuthorized, hc] at ha; simp at ha
          | ok x =>
            cases hm : o.getMeRes with
            | error e => rw [isAuthorized, hc, hm] at ha; simp at ha
            | ok me =>
              cases me with
              | none => rw [isAuthorized, hc, hm] at ha; simp at ha
              | some y => cases y; rfl

/-- Witness for verify_session_normalises_errors: a transient transport
failure on connect invalidates the stored session and returns False. -/
theorem verify_session_normalises_errors_witness :
    ((⟨some ⟨true, true⟩⟩ : SessionStoreState).row = some ⟨true, true⟩
      ∧ (⟨true, true⟩ : StoredSession).isValid = true
      ∧ (⟨true, true⟩ : StoredSession).decryptable = true)
    ∧ verifySession ⟨some ⟨true, true⟩⟩ false
        ⟨.error "ConnectionResetError", .ok (some ())⟩
      = (invalidateSession ⟨some ⟨true, true⟩⟩, false) :=
  ⟨⟨rfl, rfl, rfl⟩,
   (verify_session_normalises_errors ⟨some ⟨true, true⟩⟩ ⟨true, true⟩
      false ⟨.error "ConnectionResetError", .ok (some ())⟩ rfl rfl rfl).1
     (Or.inl ⟨"ConnectionResetError", rfl⟩)⟩

/-! Album integrity. -/

instance : IsTotal GMsg (fun a b => a.id ≤ b.id) :=
  ⟨fun a b => Nat.le_total a.id b.id⟩

instance : IsTrans GMsg (fun a b => a.id ≤ b.id) :=
  ⟨fun _ _ _ hab hbc => Nat.le_trans hab hbc⟩

/-- While every arrival for the single buffered group comes before its
flush deadline, the run only appends to the buffer: no callback fires and
the flush task stays scheduled. -/
theorem runArrivals_singleGroup (T : Nat) (gid : String) (hgid : gid ≠ "")
    (d : Nat) :
    ∀ (as : List Arrival) (buf : List GMsg),
      (∀ a ∈ as, a.msg.groupId = gid) → (∀ a ∈ as, a.time < d) →
      runArrivals T ⟨[(gid, buf)], [(d, gid)]⟩ as
        = (⟨[(gid, buf ++ as.map (fun a => a.msg))], [(d, gid)]⟩, []) := by
  intro as
  induction as with
  | nil => intro buf _ _; simp [runArrivals]
  | cons a tl ih =>
    intro buf hg ht
    have hga : a.msg.groupId = gid := hg a (by simp)
    have hta : ¬ d ≤ a.time := Nat.not_le.mpr (ht a (by simp))
    have hstep : stepArrival T ⟨[(gid, buf)], [(d, gid)]⟩ a
        = (⟨[(gid, buf ++ [a.msg])], [(d, gid)]⟩, []) := by
      simp only [stepArrival, List.filter]
      rw [decide_eq_false hta]
      simp only [Bool.not_false, fireTasks]
      simp only [collectorAdd, hga]
      rw [if_neg (by simpa using hgid)]
      simp [List.find?]
    simp only [runArrivals, hstep]
    rw [ih (buf ++ [a.msg]) (fun x hx => hg x (by simp [hx]))
      (fun x hx => ht x (by simp [hx]))]
    simp

/-- Claim C4: messages sharing a group id whose arrival times all lie
within T_flush of the first arrival produce exactly one album callback,
fired at first-arrival-time + T_flush, containing exactly those messages
sorted ascending by message id; every message is buffered for at most
T_flush. -/
theorem album_integrity (T : Nat) (gid : String) (a0 : Arrival)
    (rest : List Arrival) (hgid : gid ≠ "")
    (hg : ∀ a ∈ a0 :: rest, a.msg.groupId = gid)
    (hfirst : ∀ a ∈ a0 :: rest, a0.time ≤ a.time)
    (hwin : ∀ a ∈ a0 :: rest, a.time < a0.time + T) :
    runCollector T (a0 :: rest)
      = [⟨a0.time + T, gid,
          List.insertionSort (fun a b => a.id ≤ b.id)
            ((a0 :: rest).map (fun a => a.msg))⟩]
    ∧ List.Perm
        (List.insertionSort (fun a b => a.id ≤ b.id)
          ((a0 :: rest).map (fun a => a.msg)))
        ((a0 :: rest).map (fun a => a.msg))
    ∧ List.Sorted (fun a b : GMsg => a.id ≤ b.id)
        (List.insertionSort (fun a b => a.id ≤ b.id)
          ((a0 :: rest).map (fun a => a.msg)))
    ∧ (∀ a ∈ a0 :: rest, (a0.time + T) - a.time ≤ T) := by
  have hga : a0.msg.groupId = gid := hg a0 (by simp)
  have hstep0 : stepArrival T ⟨[], []⟩ a0
      = (⟨[(gid, [a0.msg])], [(a0.time + T, gid)]⟩, []) := by
    simp only [stepArrival, List.filter, fireTasks]
    simp only [collectorAdd, hga]
    rw [if_neg (by simpa using hgid)]
    simp [List.find?]
  have hrun : runArrivals T ⟨[], []⟩ (a0 :: rest)
      = (⟨[(gid, [a0.msg] ++ rest.map (fun a => a.msg))],
          [(a0.time + T, gid)]⟩, []) := by
    simp only [runArrivals, hstep0]
    rw [runArrivals_singleGroup T gid hgid (a0.time + T) rest [a0.msg]
      (fun x hx => hg x (by simp [hx]))
      (fun x hx => hwin x (by simp [hx]))]
    simp
  refine ⟨?_, List.perm_insertionSort _ _, List.sorted_insertionSort _ _,
    fun a ha => by have := hfirst a ha; omega⟩
  unfold runCollector
  rw [hrun]
  simp only [fireTasks, flushGroup, List.find?]
  rw [show ((gid, [a0.msg] ++ rest.map (fun a => a.msg)).1 == gid)
      = true from by simp]
  simp

/-- Fixture album arrivals: spec scenario 4 — ids 205, 203, 204 arriving
in that order within 2 seconds. -/
def albumArrivals : List Arrival :=
  [⟨0, ⟨205, "g"⟩⟩, ⟨500, ⟨203, "g"⟩⟩, ⟨1000, ⟨204, "g"⟩⟩]

/-- Witness for album_integrity at the spec scenario: one callback at
2000 with the ids sorted ascending to 203, 204, 205. -/
theorem album_integrity_witness :
    (("g" : String) ≠ ""
      ∧ (∀ a ∈ albumArrivals, a.msg.groupId = "g")
      ∧ (∀ a ∈ albumArrivals, (0 : Nat) ≤ a.time)
      ∧ (∀ a ∈ albumArrivals, a.time < 0 + 2000))
    ∧ runCollector 2000 albumArrivals
      = [⟨0 + 2000, "g",
          List.insertionSort (fun a b => a.id ≤ b.id)
            (albumArrivals.map (fun a => a.msg))⟩]
    ∧ List.insertionSort (fun a b : GMsg => a.id ≤ b.id)
        (albumArrivals.map (fun a => a.msg))
      = [⟨203, "g"⟩, ⟨204, "g"⟩, ⟨205, "g"⟩] :=
  ⟨⟨by decide, by decide, by decide, by decide⟩,
   (album_integrity 2000 "g" ⟨0, ⟨205, "g"⟩⟩
      [⟨500, ⟨203, "g"⟩⟩, ⟨1000, ⟨204, "g"⟩⟩]
      (by decide) (by decide) (by decide) (by decide)).1,
   by decide⟩
